import Mathlib

/-!
Verification of the `exportedservice` package: an etcd-backed service
exporter.  The package binds a listening socket, publishes its resolved
address into etcd under a lease, keeps the lease alive in the background
and can delete the most recent registration again.

The development shallowly embeds the two generations of the code:

* the lease-keyed variant (`exportedport.go` together with the
  context-taking `ListenAndServeNamedHTTP`): `ServiceExporter`,
  `initLease`, `NewExporter`, `NewFromDefault`, `NewExporterFromClient`,
  `NewExportedPort`, `NewExportedTLSPort`, `ListenAndServeNamedHTTP`,
  `UnexportPort`;
* the legacy etcd-v2 variant (the `AddChild`-based `NewExportedPort` and
  its `UnexportPort`): namespace `Legacy`.

External collaborators (the etcd server, the TCP stack) are modelled as
oracles: outcome functions carried in the client / network world values.
Every operation additionally returns the list of externally visible
actions it performed (`StoreEvent`), so that claims such as "performs no
store call" or "the socket is never closed" are statable.
-/

/-! ### The net layer: `net.SplitHostPort`, `net.JoinHostPort`, `net.Listen` -/

/-- Index of the last occurrence of `c` in `s`, if any.  Mirrors the
`last(hostport, ':')` byte scan of Go's `net.SplitHostPort`. -/
def lastIndexOf : List Char → Char → Option Nat
  | [], _ => none
  | x :: xs, c =>
    match lastIndexOf xs c with
    | some i => some (i + 1)
    | none => if x = c then some 0 else none

/-- Index of the first occurrence of `c` in `s`, if any.  Mirrors the
`byteIndex(hostport, ']')` scan of Go's `net.SplitHostPort`. -/
def firstIndexOf : List Char → Char → Option Nat
  | [], _ => none
  | x :: xs, c => if x = c then some 0 else (firstIndexOf xs c).map (· + 1)

/-- Host extraction of `net.SplitHostPort` given the index `i` of the
last colon: either the bracketed (IPv6) form, whose closing `]` must sit
directly before that colon, or a colon-free plain host.  Returns the
host and the positions `j`, `k` from which stray `[` and `]` are still
forbidden. -/
def splitHostPortCore (s : List Char) (i : Nat) :
    Option (List Char × Nat × Nat) :=
  if s.head? = some '[' then
    match firstIndexOf s ']' with
    | none => none
    | some e =>
      if e + 1 = s.length then none
      else if e + 1 = i then some ((s.drop 1).take (e - 1), 1, e + 1)
      else none
  else
    let host := s.take i
    if host.contains ':' then none else some (host, 0, 0)

/-- Embedding of Go's `net.SplitHostPort` on character lists.  The port
starts after the last colon; a leading `[` opens a bracketed (IPv6) host
whose closing `]` must sit directly before that colon; an unbracketed
host may not contain a colon, and no stray bracket may remain.  `none`
stands for the error returns (`missing port`, `too many colons`,
`missing ']'`, `unexpected '[' / ']'`). -/
def splitHostPortL (s : List Char) : Option (List Char × List Char) :=
  match lastIndexOf s ':' with
  | none => none
  | some i =>
    match splitHostPortCore s i with
    | none => none
    | some (host, j, k) =>
      if (s.drop j).contains '[' then none
      else if (s.drop k).contains ']' then none
      else some (host, s.drop (i + 1))

/-- Embedding of Go's `net.SplitHostPort` on strings. -/
def splitHostPort (s : String) : Option (String × String) :=
  (splitHostPortL s.data).map fun hp => (String.mk hp.1, String.mk hp.2)

/-- Embedding of Go's `net.JoinHostPort`: a host containing a colon is
bracketed. -/
def joinHostPort (host port : String) : String :=
  if host.data.contains ':' then "[" ++ host ++ "]:" ++ port
  else host ++ ":" ++ port

/-- The network world: which `(network, address)` pairs the platform can
bind, and the port the kernel hands out when port 0 ("any free port") is
requested.  A real platform never hands out port 0. -/
structure NetWorld where
  listenOk : String → String → Bool
  ephemeralPort : Nat

/-- A bound listening socket: the model of a `net.Listener`.  `host` and
`port` make up its resolved local address (`Addr()`). -/
structure Listener where
  host : String
  port : Nat
deriving DecidableEq, Repr

/-- The model of `Listener.Addr().String()`: the resolved local address
of the bound socket as `host:port` text. -/
def addrString (l : Listener) : String :=
  joinHostPort l.host (toString l.port)

/-- Decimal value of one digit character. -/
def digitVal (c : Char) : Option Nat :=
  if '0' ≤ c ∧ c ≤ '9' then some (c.toNat - '0'.toNat) else none

/-- Accumulating decimal parse of a digit string. -/
def parsePortAux : List Char → Nat → Option Nat
  | [], acc => some acc
  | c :: cs, acc =>
    match digitVal c with
    | none => none
    | some d => parsePortAux cs (acc * 10 + d)

/-- Go's port resolution for `Listen`, restricted to decimal ports: an
empty port means port 0, a digit string is read as decimal, anything
else fails the listen.  (Named service ports such as "http" are not
modelled; they only make `netListen`'s success oracle stricter.) -/
def parsePort : List Char → Option Nat
  | [] => some 0
  | c :: cs => parsePortAux (c :: cs) 0

/-- Embedding of `net.Listen network hostport`: the address must parse
as host:port with a numeric port, the platform must be able to bind it,
and a requested port 0 comes back as the kernel-assigned ephemeral
port. -/
def netListen (w : NetWorld) (network hostport : String) : Option Listener :=
  match splitHostPort hostport with
  | none => none
  | some hp =>
    match parsePort hp.2.data with
    | none => none
    | some pn =>
      if pn ≤ 65535 then
        if w.listenOk network hostport then
          some ⟨hp.1, if pn = 0 then w.ephemeralPort else pn⟩
        else none
      else none

/-! ### Key formatting: `fmt.Sprintf "/ns/service/%s/%16x"` -/

/-- Go's `%x` of an `int64`: lowercase hex digits, a `-` sign for
negative values. -/
def goHex (n : Int) : String :=
  if n < 0 then "-" ++ String.mk (Nat.toDigits 16 n.natAbs)
  else String.mk (Nat.toDigits 16 n.natAbs)

/-- Go's width-16 padding (`%16x`): left-pad with blanks to 16
characters. -/
def padLeft16 (s : String) : String :=
  if s.length < 16 then String.mk (List.replicate (16 - s.length) ' ') ++ s
  else s

/-- The lease-identifier segment of a registration key: `%16x` of the
lease ID. -/
def leasePathSegment (lease : Int) : String :=
  padLeft16 (goHex lease)

/-- The registration key of the lease-keyed variant:
`fmt.Sprintf("/ns/service/%s/%16x", service, e.leaseID)`. -/
def servicePath (service : String) (lease : Int) : String :=
  "/ns/service/" ++ service ++ "/" ++ leasePathSegment lease

/-! ### The etcd collaborator and the externally visible actions -/

/-- One externally visible action of the exporter: the etcd calls
(`Grant`, `KeepAlive`, `Put`, `Delete`) and the net calls (`Listen`,
`Listener.Close`).  `closeListener` is emitted by no operation of the
embedding because the source never calls `Close` on a listener; the
constructor exists so that its absence from a trace is statable. -/
inductive StoreEvent where
  | grant (ttl : Int)
  | keepAlive (lease : Int)
  | put (key value : String) (lease : Int)
  | del (key : String)
  | listen (network hostport : String)
  | closeListener
deriving DecidableEq, Repr

/-- Outcome oracles of the etcd v3 client handle (`*etcd.Client`):
`grantRes ttl` is the lease ID the store grants (none = `Grant` error),
`keepAliveRes id` is the keepalive channel (none = `KeepAlive` error),
`putOk` / `deleteOk` say whether a `Put` / `Delete` round-trip
succeeds. -/
structure EtcdClient where
  grantRes : Int → Option Int
  keepAliveRes : Int → Option Int
  putOk : Bool
  deleteOk : Bool

/-- The store's key-value contents: `(key, value, attached lease)`
triples, at most one per key. -/
abbrev EtcdData := List (String × String × Int)

/-- Effect of an etcd v3 `Put` with a lease: the binding for `key` is
replaced (a put onto an existing key overwrites, it never errors because
the key exists). -/
def storePut (kvs : EtcdData) (key value : String) (lease : Int) : EtcdData :=
  (key, value, lease) :: kvs.filter (fun kv => kv.1 != key)

/-- Effect of an etcd v3 `Delete`: the binding for `key` is dropped;
deleting an absent key is still a successful round-trip. -/
def storeDelete (kvs : EtcdData) (key : String) : EtcdData :=
  kvs.filter (fun kv => kv.1 != key)

/-- Lookup in the store's contents. -/
def storeGet (kvs : EtcdData) (key : String) : Option (String × Int) :=
  (kvs.find? (fun kv => kv.1 == key)).map (·.2)

/-- How many entries of the store sit under `key`. -/
def countKey (kvs : EtcdData) (key : String) : Nat :=
  (kvs.filter (fun kv => kv.1 == key)).length

/-! ### The lease-keyed exporter (`exportedport.go`) -/

/-- The `ServiceExporter` struct: the client handle, the most recently
written registration key (`path`, the Go zero value is the empty
string), the lease identifier (`leaseID`, zero value 0) and the
keepalive-acknowledgement channel (`keepaliveResponses`, nil = `none`;
`some ch` also stands for the `consumeKeepaliveResponses` goroutine
draining `ch`). -/
structure ServiceExporter where
  conn : EtcdClient
  path : String
  leaseID : Int
  keepaliveResponses : Option Int

/-- Result of `initLease`: the (possibly updated) receiver, the returned
error, and the etcd calls made. -/
structure InitResult where
  exporter : ServiceExporter
  err : Option String
  events : List StoreEvent

/-- Embedding of `(*ServiceExporter).initLease`: `Grant` the lease, set
up the `KeepAlive` stream, and only then record the lease ID and start
the draining goroutine.  Either failure is returned as the error; the
`Grant` round-trip is attempted for every ttl (the source validates
nothing locally). -/
def initLease (e : ServiceExporter) (ttl : Int) : InitResult :=
  match e.conn.grantRes ttl with
  | none => ⟨e, some "lease grant failed", [.grant ttl]⟩
  | some id =>
    match e.conn.keepAliveRes id with
    | none =>
      ⟨{ e with keepaliveResponses := none }, some "keepalive setup failed",
        [.grant ttl, .keepAlive id]⟩
    | some ch =>
      ⟨{ e with keepaliveResponses := some ch, leaseID := id }, none,
        [.grant ttl, .keepAlive id]⟩

/-- Result of a constructor: the returned `*ServiceExporter` (`none` =
nil), the returned error, and the etcd calls made. -/
structure CtorResult where
  exporter : Option ServiceExporter
  err : Option String
  events : List StoreEvent

/-- Embedding of `NewExporterFromClient`: allocate the exporter around
the given client and return it together with `initLease`'s error — the
source's `return rv, rv.initLease(ctx, ttl)` hands the caller the
(possibly partially initialized) pointer even when `initLease` fails. -/
def NewExporterFromClient (client : EtcdClient) (ttl : Int) : CtorResult :=
  let rv : ServiceExporter :=
    { conn := client, path := "", leaseID := 0, keepaliveResponses := none }
  let r := initLease rv ttl
  ⟨some r.exporter, r.err, r.events⟩

/-- Embedding of `NewExporter`: `newFromURLOk` is the outcome of
`etcd.NewFromURL` (its network behaviour is an external collaborator).
On client-construction failure the source returns `nil, err`; otherwise
it behaves as `NewExporterFromClient`. -/
def NewExporter (newFromURLOk : Bool) (client : EtcdClient) (ttl : Int) :
    CtorResult :=
  if newFromURLOk then
    let self : ServiceExporter :=
      { conn := client, path := "", leaseID := 0, keepaliveResponses := none }
    let r := initLease self ttl
    ⟨some r.exporter, r.err, r.events⟩
  else ⟨none, some "NewFromURL failed", []⟩

/-- Embedding of `NewFromDefault`: `defaultClientOk` is the outcome of
`autoconf.DefaultEtcdClient`; the rest is as in `NewExporter`. -/
def NewFromDefault (defaultClientOk : Bool) (client : EtcdClient) (ttl : Int) :
    CtorResult :=
  if defaultClientOk then
    let self : ServiceExporter :=
      { conn := client, path := "", leaseID := 0, keepaliveResponses := none }
    let r := initLease self ttl
    ⟨some r.exporter, r.err, r.events⟩
  else ⟨none, some "DefaultEtcdClient failed", []⟩

/-- The address-handling block of `NewExportedPort`: an `ip` that does
not split as host:port is treated as a bare host and joined with port
"0"; one that does split is used verbatim. -/
def exportHostport (ip : String) : String :=
  match splitHostPort ip with
  | none => joinHostPort ip "0"
  | some _ => ip

/-- Result of `NewExportedPort`: the returned listener (`none` = nil),
the returned error, the receiver afterwards, the store contents
afterwards, and the net/etcd calls made. -/
structure ExportResult where
  listener : Option Listener
  err : Option String
  exporter : ServiceExporter
  store : EtcdData
  events : List StoreEvent

/-- Embedding of `(*ServiceExporter).NewExportedPort`: listen on the
chosen host:port, `Put` the listener's resolved address under
`servicePath` with the exporter's lease attached, and remember the key
in `e.path` only when both steps succeeded.  On a failed `Put` the
bound listener is dropped without being closed. -/
def NewExportedPort (w : NetWorld) (store : EtcdData) (e : ServiceExporter)
    (network ip service : String) : ExportResult :=
  match netListen w network (exportHostport ip) with
  | none =>
    ⟨none, some "listen failed", e, store,
      [.listen network (exportHostport ip)]⟩
  | some l =>
    if e.conn.putOk then
      ⟨some l, none, { e with path := servicePath service e.leaseID },
        storePut store (servicePath service e.leaseID) (addrString l)
          e.leaseID,
        [.listen network (exportHostport ip),
          .put (servicePath service e.leaseID) (addrString l) e.leaseID]⟩
    else
      ⟨none, some "put failed", e, store,
        [.listen network (exportHostport ip),
          .put (servicePath service e.leaseID) (addrString l) e.leaseID]⟩

/-- An opaque `*tls.Config`. -/
structure TLSConfig where
  id : Nat
deriving DecidableEq, Repr

/-- The model of `tls.NewListener l config`: the plain listener wrapped
with a TLS handshake layer. -/
structure TLSListener where
  inner : Listener
  config : TLSConfig
deriving DecidableEq, Repr

/-- Result of `NewExportedTLSPort`. -/
structure TLSExportResult where
  listener : Option TLSListener
  err : Option String
  exporter : ServiceExporter
  store : EtcdData
  events : List StoreEvent

/-- Embedding of `(*ServiceExporter).NewExportedTLSPort`: delegate to
`NewExportedPort` and, on success, wrap the listener in a TLS layer.
No registration logic of its own. -/
def NewExportedTLSPort (w : NetWorld) (store : EtcdData) (e : ServiceExporter)
    (network ip servicename : String) (config : TLSConfig) : TLSExportResult :=
  match (NewExportedPort w store e network ip servicename).err with
  | some err =>
    ⟨none, some err,
      (NewExportedPort w store e network ip servicename).exporter,
      (NewExportedPort w store e network ip servicename).store,
      (NewExportedPort w store e network ip servicename).events⟩
  | none =>
    ⟨(NewExportedPort w store e network ip servicename).listener.map
        (fun l => ⟨l, config⟩), none,
      (NewExportedPort w store e network ip servicename).exporter,
      (NewExportedPort w store e network ip servicename).store,
      (NewExportedPort w store e network ip servicename).events⟩

/-- Result of `ListenAndServeNamedHTTP`. -/
structure ServeResult where
  err : Option String
  exporter : ServiceExporter
  store : EtcdData
  events : List StoreEvent

/-- Embedding of `(*ServiceExporter).ListenAndServeNamedHTTP`: export a
"tcp" port under the service name, then run `http.Serve` on the
listener; `serveErr` is `http.Serve`'s eventual return value (an
external collaborator's behaviour). -/
def ListenAndServeNamedHTTP (w : NetWorld) (serveErr : Option String)
    (store : EtcdData) (e : ServiceExporter) (servicename addr : String) :
    ServeResult :=
  match (NewExportedPort w store e "tcp" addr servicename).err with
  | some err =>
    ⟨some err, (NewExportedPort w store e "tcp" addr servicename).exporter,
      (NewExportedPort w store e "tcp" addr servicename).store,
      (NewExportedPort w store e "tcp" addr servicename).events⟩
  | none =>
    ⟨serveErr, (NewExportedPort w store e "tcp" addr servicename).exporter,
      (NewExportedPort w store e "tcp" addr servicename).store,
      (NewExportedPort w store e "tcp" addr servicename).events⟩

/-- Result of `UnexportPort`. -/
structure UnexportResult where
  err : Option String
  exporter : ServiceExporter
  store : EtcdData
  events : List StoreEvent

/-- Embedding of `(*ServiceExporter).UnexportPort`: a no-op when no path
was ever published, otherwise a single `Delete` of the remembered key.
Neither the path nor any lease state is modified. -/
def UnexportPort (store : EtcdData) (e : ServiceExporter) : UnexportResult :=
  if e.path.length = 0 then ⟨none, e, store, []⟩
  else if e.conn.deleteOk then
    ⟨none, e, storeDelete store e.path, [.del e.path]⟩
  else ⟨some "delete failed", e, store, [.del e.path]⟩

/-! ### The legacy etcd-v2 variant (`AddChild`-based) -/

namespace Legacy

/-- Outcome oracle of the legacy `go-etcd` client: whether an `AddChild`
round-trip succeeds. -/
structure EtcdClient where
  addChildOk : Bool
  deleteOk : Bool

/-- The legacy v2 store: `AddChild` under a parent key allocates the
next index as the child's name.  `kvs` holds `(key, value)` pairs. -/
structure Store where
  nextIndex : Nat
  kvs : List (String × String)

/-- The legacy `ServiceExporter` struct: the v2 client and the key of
the most recently created child node. -/
structure ServiceExporter where
  conn : EtcdClient
  path : String

/-- Result of the legacy `NewExportedPort`. -/
structure ExportResult where
  listener : Option Listener
  err : Option String
  exporter : ServiceExporter
  store : Store

/-- The legacy address handling: the port of a host:port `ip` is split
off and discarded — the listen address is always the (extracted or bare)
host joined with port "0". -/
def legacyHostport (ip : String) : String :=
  joinHostPort
    (match splitHostPort ip with
      | none => ip
      | some hp => hp.1) "0"

/-- The child key the v2 store's `AddChild` allocates under the service
parent node. -/
def legacyChildKey (servicename : String) (idx : Nat) : String :=
  "/ns/service/" ++ servicename ++ "/" ++ toString idx

/-- Embedding of the legacy `NewExportedPort`: listen on
`legacyHostport ip`, and hand `AddChild` that very pre-bind `hostport`
string as the value — not the listener's resolved address. -/
def NewExportedPort (w : NetWorld) (store : Store) (e : ServiceExporter)
    (network ip servicename : String) : ExportResult :=
  match netListen w network (legacyHostport ip) with
  | none => ⟨none, some "listen failed", e, store⟩
  | some l =>
    if e.conn.addChildOk then
      ⟨some l, none,
        { e with path := legacyChildKey servicename store.nextIndex },
        ⟨store.nextIndex + 1,
          (legacyChildKey servicename store.nextIndex, legacyHostport ip)
            :: store.kvs⟩⟩
    else ⟨none, some "addchild failed", e, store⟩

/-- Result of the legacy `UnexportPort`. -/
structure UnexportResult where
  err : Option String
  exporter : ServiceExporter
  store : Store

/-- Embedding of the legacy `UnexportPort`: a no-op when no path was
remembered, otherwise a single non-recursive `Delete` of that key. -/
def UnexportPort (store : Store) (e : ServiceExporter) : UnexportResult :=
  if e.path.length = 0 then ⟨none, e, store⟩
  else if e.conn.deleteOk then
    ⟨none, e, ⟨store.nextIndex, store.kvs.filter (fun kv => kv.1 != e.path)⟩⟩
  else ⟨some "delete failed", e, store⟩

end Legacy

/-! ### Concrete collaborators used by the closed theorems -/

/-- A network world where every bind succeeds and the kernel assigns
port 34567 for a requested port 0. -/
def w0 : NetWorld :=
  { listenOk := fun _ _ => true, ephemeralPort := 34567 }

/-- A reachable store that grants lease 7, sets keepalive up, and
accepts puts and deletes. -/
def okClient : EtcdClient :=
  { grantRes := fun _ => some 7, keepAliveRes := fun _ => some 1,
    putOk := true, deleteOk := true }

/-- A store whose lease grant fails. -/
def grantFailClient : EtcdClient :=
  { grantRes := fun _ => none, keepAliveRes := fun _ => none,
    putOk := true, deleteOk := true }

/-- A reachable store whose `Put` round-trips fail. -/
def putFailClient : EtcdClient :=
  { grantRes := fun _ => some 7, keepAliveRes := fun _ => some 1,
    putOk := false, deleteOk := true }

/-- A fully initialized exporter over `okClient` (lease 7 granted and
kept alive). -/
def okExporter : ServiceExporter :=
  { conn := okClient, path := "", leaseID := 7, keepaliveResponses := some 1 }

/-- A fully initialized exporter over `putFailClient`. -/
def putFailExporter : ServiceExporter :=
  { conn := putFailClient, path := "", leaseID := 7, keepaliveResponses := some 1 }

/-- A legacy exporter over a v2 client that accepts all calls. -/
def legacyExporter : Legacy.ServiceExporter :=
  { conn := { addChildOk := true, deleteOk := true }, path := "" }

/-- An exporter over `okClient` that has already published under the
key "/k". -/
def pathExporter : ServiceExporter :=
  { conn := okClient, path := "/k", leaseID := 7, keepaliveResponses := some 1 }

/-! ### Helper lemmas about the net layer -/

/-- The last occurrence within the appended suffix wins. -/
theorem lastIndexOf_append {ys : List Char} {c : Char} {j : Nat}
    (h : lastIndexOf ys c = some j) (xs : List Char) :
    lastIndexOf (xs ++ ys) c = some (xs.length + j) := by
  induction xs with
  | nil => simpa using h
  | cons x xs ih =>
    simp only [List.cons_append, lastIndexOf, List.append_eq, ih,
      List.length_cons, Option.some.injEq]
    omega

/-- Whatever branch `splitHostPortL` succeeds through, the port is the
suffix after the last colon. -/
theorem splitHostPortL_port {s : List Char} {hp : List Char × List Char}
    (h : splitHostPortL s = some hp) :
    ∃ i, lastIndexOf s ':' = some i ∧ hp.2 = s.drop (i + 1) := by
  unfold splitHostPortL at h
  split at h
  · cases h
  · rename_i i hli
    split at h
    · cases h
    · rename_i host j k hcore
      split at h
      · cases h
      · split at h
        · cases h
        · cases h
          exact ⟨i, hli, rfl⟩

/-- A string joined with port "0" splits back with port "0" whenever it
splits at all. -/
theorem splitHostPort_join0 {h : String} {hp : String × String}
    (hs : splitHostPort (joinHostPort h "0") = some hp) : hp.2 = "0" := by
  obtain ⟨lp, hlp, rfl⟩ : ∃ lp,
      splitHostPortL (joinHostPort h "0").data = some lp ∧
      hp = (String.mk lp.1, String.mk lp.2) := by
    unfold splitHostPort at hs
    cases hl : splitHostPortL (joinHostPort h "0").data with
    | none => rw [hl] at hs; cases hs
    | some lp => rw [hl] at hs; exact ⟨lp, rfl, by cases hs; rfl⟩
  obtain ⟨xs, hxs⟩ : ∃ xs, (joinHostPort h "0").data = xs ++ [':', '0'] := by
    unfold joinHostPort
    split
    · exact ⟨'[' :: h.data ++ [']'], by simp [String.data_append]⟩
    · exact ⟨h.data, by simp [String.data_append]⟩
  obtain ⟨i, hi, hport⟩ := splitHostPortL_port hlp
  rw [hxs] at hi
  rw [lastIndexOf_append (by decide : lastIndexOf [':', '0'] ':' = some 0) xs]
    at hi
  cases hi
  rw [hxs] at hport
  have hdrop : (xs ++ [':', '0']).drop (xs.length + 0 + 1) = ['0'] := by
    have hsplit2 : xs ++ [':', '0'] = (xs ++ [':']) ++ ['0'] := by simp
    rw [hsplit2]
    have h2 : (xs ++ [':']).length = xs.length + 0 + 1 := by simp
    rw [← h2, List.drop_left]
  rw [hdrop] at hport
  simp only [hport]

/-- A successful `netListen` came from a successful split and port
parse, and its port is the requested one or the ephemeral one. -/
theorem netListen_some {w : NetWorld} {network hostport : String}
    {l : Listener} (h : netListen w network hostport = some l) :
    ∃ hp pn, splitHostPort hostport = some hp ∧
      parsePort hp.2.data = some pn ∧
      l = ⟨hp.1, if pn = 0 then w.ephemeralPort else pn⟩ := by
  unfold netListen at h
  split at h
  · cases h
  · rename_i hp hsp
    split at h
    · cases h
    · rename_i pn hpn
      split at h
      · split at h
        · cases h
          exact ⟨hp, pn, hsp, hpn, rfl⟩
        · cases h
      · cases h

/-- Listening on a host joined with port "0" always binds the
kernel-assigned ephemeral port. -/
theorem netListen_join0_port {w : NetWorld} {network hostAddr : String}
    {l : Listener}
    (h : netListen w network (joinHostPort hostAddr "0") = some l) :
    l.port = w.ephemeralPort := by
  obtain ⟨hp, pn, hsp, hpn, rfl⟩ := netListen_some h
  have h0 : hp.2 = "0" := splitHostPort_join0 hsp
  rw [h0] at hpn
  have hz : pn = 0 := by
    have he : parsePort ("0").data = some 0 := by decide
    rw [he] at hpn
    cases hpn
    rfl
  subst hz
  simp

/-! ### Helper lemmas about the exporter operations -/

/-- A successful export came through `netListen` on the chosen hostport,
with the `Put` accepted, and the whole result is determined by the bound
listener. -/
theorem export_success {w : NetWorld} {store : EtcdData}
    {e : ServiceExporter} {network ip service : String} {l : Listener}
    (h : (NewExportedPort w store e network ip service).listener = some l) :
    netListen w network (exportHostport ip) = some l ∧
    e.conn.putOk = true ∧
    NewExportedPort w store e network ip service =
      ⟨some l, none, { e with path := servicePath service e.leaseID },
        storePut store (servicePath service e.leaseID) (addrString l)
          e.leaseID,
        [.listen network (exportHostport ip),
          .put (servicePath service e.leaseID) (addrString l) e.leaseID]⟩ := by
  unfold NewExportedPort at h ⊢
  split at h
  · cases h
  · rename_i l0 hnl
    split at h
    · rename_i hput
      cases h
      exact ⟨hnl, hput, by simp only [hput, if_true]⟩
    · cases h

/-- `storeGet` after `storePut` of the same key sees the new value. -/
theorem storeGet_storePut (kvs : EtcdData) (k v : String) (lease : Int) :
    storeGet (storePut kvs k v lease) k = some (v, lease) := by
  unfold storeGet storePut
  rw [List.find?_cons_of_pos _ (by simp)]
  rfl

/-- `storePut` leaves exactly one entry under the written key. -/
theorem countKey_storePut (kvs : EtcdData) (k v : String) (lease : Int) :
    countKey (storePut kvs k v lease) k = 1 := by
  unfold countKey storePut
  have hnil : (kvs.filter (fun kv => kv.1 != k)).filter
      (fun kv => kv.1 == k) = [] := by
    rw [List.filter_filter]
    refine List.filter_eq_nil_iff.mpr ?_
    intro a _
    cases hak : a.1 == k <;> simp [bne, hak]
  simp [hnil]

/-- The legacy export always listens on some host joined with "0". -/
theorem legacy_listener_join0 {w : NetWorld} {lst : Legacy.Store}
    {le : Legacy.ServiceExporter} {network ip servicename : String}
    {l : Listener}
    (h : (Legacy.NewExportedPort w lst le network ip servicename).listener =
      some l) :
    ∃ hostOnly, netListen w network (joinHostPort hostOnly "0") = some l := by
  unfold Legacy.NewExportedPort at h
  split at h
  · cases h
  · rename_i l0 hnl
    split at h
    · cases h
      unfold Legacy.legacyHostport at hnl
      exact ⟨_, hnl⟩
    · cases h

/-- No export ever touches the exporter's lease identifier. -/
theorem export_exporter_leaseID (w : NetWorld) (store : EtcdData)
    (e : ServiceExporter) (network ip service : String) :
    (NewExportedPort w store e network ip service).exporter.leaseID =
      e.leaseID := by
  unfold NewExportedPort
  cases netListen w network (exportHostport ip) with
  | none => rfl
  | some l =>
    dsimp only
    cases hput : e.conn.putOk <;> simp [hput]

/-! ### Claims C1 and C2: initialization -/

/-- Claim C1, counterexample: against a store whose lease grant fails,
`NewExporterFromClient` returns an error and nonetheless returns a
non-nil exporter handle, contradicting "no exporter handle is
returned". -/
theorem claim_C1_counterexample :
    (NewExporterFromClient grantFailClient 10).err.isSome = true ∧
    (NewExporterFromClient grantFailClient 10).exporter.isSome = true :=
  ⟨rfl, rfl⟩

/-- Claim C1, amended: when lease grant or keepalive-stream setup fails
the caller does receive the error, but the three constructors return a
non-nil, partially initialized exporter (lease identifier still 0, no
published path) alongside it; only client construction failure makes
`NewExporter` / `NewFromDefault` return a nil handle. -/
theorem claim_C1_amended (client : EtcdClient) (ttl : Int)
    (h : client.grantRes ttl = none ∨
      ∃ id, client.grantRes ttl = some id ∧ client.keepAliveRes id = none) :
    (NewExporterFromClient client ttl).err.isSome = true ∧
    (∃ ex, (NewExporterFromClient client ttl).exporter = some ex ∧
      ex.leaseID = 0 ∧ ex.path = "") ∧
    (NewExporter true client ttl).err.isSome = true ∧
    (NewExporter true client ttl).exporter.isSome = true ∧
    (NewFromDefault true client ttl).err.isSome = true ∧
    (NewFromDefault true client ttl).exporter.isSome = true ∧
    (NewExporter false client ttl).exporter = none ∧
    (NewFromDefault false client ttl).exporter = none := by
  rcases h with hg | ⟨id, hg, hk⟩
  · simp [NewExporterFromClient, NewExporter, NewFromDefault, initLease, hg]
  · simp [NewExporterFromClient, NewExporter, NewFromDefault, initLease,
      hg, hk]

/-- Claim C1 witness: the amended statement at the concrete
grant-failing store. -/
theorem claim_C1_amended_witness :
    grantFailClient.grantRes 10 = none ∧
    ((NewExporterFromClient grantFailClient 10).err.isSome = true ∧
    (∃ ex, (NewExporterFromClient grantFailClient 10).exporter = some ex ∧
      ex.leaseID = 0 ∧ ex.path = "") ∧
    (NewExporter true grantFailClient 10).err.isSome = true ∧
    (NewExporter true grantFailClient 10).exporter.isSome = true ∧
    (NewFromDefault true grantFailClient 10).err.isSome = true ∧
    (NewFromDefault true grantFailClient 10).exporter.isSome = true ∧
    (NewExporter false grantFailClient 10).exporter = none ∧
    (NewFromDefault false grantFailClient 10).exporter = none) :=
  ⟨rfl, claim_C1_amended grantFailClient 10 (Or.inl rfl)⟩

/-- Claim C2, counterexample: with ttl = 4 (< 5) against a granting
store the initialization succeeds — nothing rejects the TTL — and the
grant round-trip (a store action) is performed with that very ttl. -/
theorem claim_C2_counterexample :
    (NewExporterFromClient okClient 4).err = none ∧
    (NewExporterFromClient okClient 4).events =
      [.grant 4, .keepAlive 7] ∧
    ((NewExporterFromClient okClient 4).exporter.map
      ServiceExporter.leaseID) = some 7 :=
  ⟨rfl, rfl, rfl⟩

/-- Claim C2, amended: initialization performs no TTL validation — for
every TTL the very first action is the grant round-trip against the
store — and lease acquisition is decided purely by the store: when grant
and keepalive setup succeed (for any TTL, also < 5) the exporter records
the granted lease identifier. -/
theorem claim_C2_amended (e : ServiceExporter) (ttl id ch : Int)
    (hg : e.conn.grantRes ttl = some id)
    (hk : e.conn.keepAliveRes id = some ch) :
    (∀ (e2 : ServiceExporter) (t2 : Int),
      (initLease e2 t2).events.head? = some (.grant t2)) ∧
    (initLease e ttl).err = none ∧
    (initLease e ttl).exporter.leaseID = id ∧
    (initLease e ttl).exporter.keepaliveResponses = some ch := by
  refine ⟨?_, ?_⟩
  · intro e2 t2
    unfold initLease
    cases e2.conn.grantRes t2 with
    | none => rfl
    | some id2 =>
      dsimp only
      cases e2.conn.keepAliveRes id2 <;> rfl
  · simp [initLease, hg, hk]

/-- Claim C2 witness: the amended statement at ttl = 4 against the
concrete granting store. -/
theorem claim_C2_amended_witness :
    okExporter.conn.grantRes 4 = some 7 ∧
    okExporter.conn.keepAliveRes 7 = some 1 ∧
    ((∀ (e2 : ServiceExporter) (t2 : Int),
      (initLease e2 t2).events.head? = some (.grant t2)) ∧
    (initLease okExporter 4).err = none ∧
    (initLease okExporter 4).exporter.leaseID = 7 ∧
    (initLease okExporter 4).exporter.keepaliveResponses = some 1) :=
  ⟨rfl, rfl, claim_C2_amended okExporter 4 7 1 rfl rfl⟩

/-! ### Claim C3: address handling -/

/-- Claim C3, counterexample: "127.0.0.1:9000" parses as a host:port
pair, yet the legacy export binds the kernel-assigned port 34567, not
9000 — the legacy variant always overrides the requested port. -/
theorem claim_C3_counterexample :
    splitHostPort "127.0.0.1:9000" = some ("127.0.0.1", "9000") ∧
    (Legacy.NewExportedPort w0 ⟨0, []⟩ legacyExporter "tcp" "127.0.0.1:9000"
      "svc").listener = some ⟨"127.0.0.1", 34567⟩ ∧
    (34567 : Nat) ≠ 9000 :=
  ⟨by decide, by decide, by decide⟩

/-- Claim C3, amended: in the lease-keyed exporter the claim holds — a
host:port address with a nonzero numeric port binds exactly that port,
a bare host listens on port 0 and binds (and publishes) the
kernel-assigned port; in the legacy exporter the given port is always
discarded and the kernel-assigned port is bound. -/
theorem claim_C3_amended (w : NetWorld) (store : EtcdData)
    (e : ServiceExporter) (lst : Legacy.Store) (le : Legacy.ServiceExporter)
    (network ip service : String) :
    (∀ hp pn l, splitHostPort ip = some hp → parsePort hp.2.data = some pn →
      pn ≠ 0 →
      (NewExportedPort w store e network ip service).listener = some l →
      l.port = pn) ∧
    (∀ l, splitHostPort ip = none →
      (NewExportedPort w store e network ip service).listener = some l →
      l.port = w.ephemeralPort) ∧
    (∀ l, (NewExportedPort w store e network ip service).listener = some l →
      storeGet (NewExportedPort w store e network ip service).store
        (servicePath service e.leaseID) = some (addrString l, e.leaseID)) ∧
    (∀ l, (Legacy.NewExportedPort w lst le network ip service).listener =
        some l →
      l.port = w.ephemeralPort) := by
  refine ⟨?_, ?_, ?_, ?_⟩
  · intro hp pn l hsp hpn hpz hl
    obtain ⟨hnl, -, -⟩ := export_success hl
    rw [exportHostport, hsp] at hnl
    obtain ⟨hp2, pn2, hsp2, hpn2, rfl⟩ := netListen_some hnl
    rw [hsp] at hsp2
    cases hsp2
    rw [hpn] at hpn2
    cases hpn2
    simp [hpz]
  · intro l hsp hl
    obtain ⟨hnl, -, -⟩ := export_success hl
    rw [exportHostport, hsp] at hnl
    exact netListen_join0_port hnl
  · intro l hl
    obtain ⟨-, -, heq⟩ := export_success hl
    rw [heq]
    exact storeGet_storePut _ _ _ _
  · intro l hl
    obtain ⟨hostOnly, hnl⟩ := legacy_listener_join0 hl
    exact netListen_join0_port hnl

/-! ### Claim C4: the published value -/

/-- Claim C4 (the legacy code diverges): exporting the bare host
"127.0.0.1" binds the kernel-assigned port 34567, but the legacy code
stores the pre-bind string "127.0.0.1:0" — a value ending in ":0" that
differs from the listener's resolved address — while the lease-keyed
variant stores exactly the resolved address, lease-attached. -/
theorem claim_C4_legacy_divergence :
    (Legacy.NewExportedPort w0 ⟨0, []⟩ legacyExporter "tcp" "127.0.0.1"
      "svc").listener = some ⟨"127.0.0.1", 34567⟩ ∧
    (Legacy.NewExportedPort w0 ⟨0, []⟩ legacyExporter "tcp" "127.0.0.1"
      "svc").store.kvs = [("/ns/service/svc/0", "127.0.0.1:0")] ∧
    addrString ⟨"127.0.0.1", 34567⟩ = "127.0.0.1:34567" ∧
    ("127.0.0.1:0" : String) ≠ "127.0.0.1:34567" ∧
    (NewExportedPort w0 [] okExporter "tcp" "127.0.0.1" "svc").store =
      [(servicePath "svc" 7, "127.0.0.1:34567", 7)] :=
  ⟨by decide, by decide, by decide, by decide, by decide⟩

/-! ### Claim C5: key layout and overwrite -/

/-- Claim C5: on success the written key is
`/ns/service/{service}/{lease hex, width 16}`; the error outcome of an
export never depends on the store's existing contents; and two
successive successful exports of the same service on the same exporter
compute the identical key, so the second put overwrites — afterwards the
key holds the second value and exactly one entry sits under it. -/
theorem claim_C5_key_layout_overwrite (w1 w2 : NetWorld) (store : EtcdData)
    (e : ServiceExporter) (n1 ip1 n2 ip2 service : String) :
    (∀ l1, (NewExportedPort w1 store e n1 ip1 service).listener = some l1 →
      (NewExportedPort w1 store e n1 ip1 service).exporter.path =
        "/ns/service/" ++ service ++ "/" ++ leasePathSegment e.leaseID) ∧
    ((NewExportedPort w2 store e n2 ip2 service).err =
      (NewExportedPort w2 [] e n2 ip2 service).err) ∧
    (∀ l1 l2,
      (NewExportedPort w1 store e n1 ip1 service).listener = some l1 →
      (NewExportedPort w2 (NewExportedPort w1 store e n1 ip1 service).store
        (NewExportedPort w1 store e n1 ip1 service).exporter n2 ip2
        service).listener = some l2 →
      (NewExportedPort w2 (NewExportedPort w1 store e n1 ip1 service).store
        (NewExportedPort w1 store e n1 ip1 service).exporter n2 ip2
        service).exporter.path =
        (NewExportedPort w1 store e n1 ip1 service).exporter.path ∧
      storeGet (NewExportedPort w2
          (NewExportedPort w1 store e n1 ip1 service).store
          (NewExportedPort w1 store e n1 ip1 service).exporter n2 ip2
          service).store (servicePath service e.leaseID) =
        some (addrString l2, e.leaseID) ∧
      countKey (NewExportedPort w2
          (NewExportedPort w1 store e n1 ip1 service).store
          (NewExportedPort w1 store e n1 ip1 service).exporter n2 ip2
          service).store (servicePath service e.leaseID) = 1) := by
  refine ⟨?_, ?_, ?_⟩
  · intro l1 hl1
    obtain ⟨-, -, heq⟩ := export_success hl1
    rw [heq]
    rfl
  · unfold NewExportedPort
    cases netListen w2 n2 (exportHostport ip2) with
    | none => rfl
    | some l =>
      dsimp only
      cases hput : e.conn.putOk <;> simp [hput]
  · intro l1 l2 hl1 hl2
    obtain ⟨-, -, heq1⟩ := export_success hl1
    rw [heq1] at hl2 ⊢
    obtain ⟨-, -, heq2⟩ := export_success hl2
    rw [heq2]
    refine ⟨rfl, ?_, ?_⟩
    · exact storeGet_storePut _ _ _ _
    · exact countKey_storePut _ _ _ _

/-! ### Claim C6: unexport semantics -/

/-- Claim C6: with no prior publish (`path` empty) `UnexportPort`
returns success, leaves the store untouched and performs no store call
at all; otherwise (against a reachable store) it returns success having
issued exactly one `Delete` of exactly the remembered key; in every case
the lease state of the exporter is untouched.  The legacy variant's
empty-path no-op behaves identically. -/
theorem claim_C6_unexport (store : EtcdData) (e : ServiceExporter)
    (lst : Legacy.Store) (le : Legacy.ServiceExporter) :
    (e.path.length = 0 →
      UnexportPort store e = ⟨none, e, store, []⟩) ∧
    (e.path.length ≠ 0 → e.conn.deleteOk = true →
      UnexportPort store e =
        ⟨none, e, storeDelete store e.path, [.del e.path]⟩) ∧
    (UnexportPort store e).exporter.leaseID = e.leaseID ∧
    (UnexportPort store e).exporter.keepaliveResponses =
      e.keepaliveResponses ∧
    (le.path.length = 0 → Legacy.UnexportPort lst le = ⟨none, le, lst⟩) := by
  refine ⟨?_, ?_, ?_, ?_, ?_⟩
  · intro hp
    unfold UnexportPort
    simp [hp]
  · intro hp hd
    unfold UnexportPort
    simp [hp, hd]
  · unfold UnexportPort
    split
    · rfl
    · split <;> rfl
  · unfold UnexportPort
    split
    · rfl
    · split <;> rfl
  · intro hp
    unfold Legacy.UnexportPort
    simp [hp]

/-! ### Claim C7: the path is written only on full success -/

/-- Claim C7: after any export call, the exporter's remembered path
equals the freshly computed registration key when the call returned no
error, and is completely unchanged otherwise (listen failure — which
includes a malformed address — or store write failure); likewise in the
legacy variant. -/
theorem claim_C7_path_only_on_success (w : NetWorld) (store : EtcdData)
    (e : ServiceExporter) (lst : Legacy.Store) (le : Legacy.ServiceExporter)
    (network ip service : String) :
    (NewExportedPort w store e network ip service).exporter.path =
      (if (NewExportedPort w store e network ip service).err = none
        then servicePath service e.leaseID else e.path) ∧
    (Legacy.NewExportedPort w lst le network ip service).exporter.path =
      (if (Legacy.NewExportedPort w lst le network ip service).err = none
        then Legacy.legacyChildKey service lst.nextIndex else le.path) := by
  constructor
  · unfold NewExportedPort
    cases netListen w network (exportHostport ip) with
    | none => simp
    | some l =>
      dsimp only
      cases hput : e.conn.putOk <;> simp [hput]
  · unfold Legacy.NewExportedPort
    cases netListen w network (Legacy.legacyHostport ip) with
    | none => simp
    | some l =>
      dsimp only
      cases hac : le.conn.addChildOk <;> simp [hac]

/-! ### Claim C8: store write failure after a successful bind -/

/-- Claim C8, counterexample: a concrete run where the bind succeeds and
the store write fails returns an error with a nil listener — but no
close of the bound socket is ever performed, so the socket does dangle,
contradicting "the bound socket is closed before the error is
returned". -/
theorem claim_C8_counterexample :
    (NewExportedPort w0 [] putFailExporter "tcp" "127.0.0.1"
      "svc").err.isSome = true ∧
    (NewExportedPort w0 [] putFailExporter "tcp" "127.0.0.1"
      "svc").listener = none ∧
    ((NewExportedPort w0 [] putFailExporter "tcp" "127.0.0.1"
      "svc").events.contains (.listen "tcp" "127.0.0.1:0")) = true ∧
    ((NewExportedPort w0 [] putFailExporter "tcp" "127.0.0.1"
      "svc").events.contains .closeListener) = false :=
  ⟨by decide, by decide, by decide, by decide⟩

/-- Claim C8, amended: when the bind succeeds and the store write fails,
the call returns an error with a nil listener and leaves the exporter
and the store untouched — but the exporter performs no close on the
bound socket before returning (it simply drops the reference). -/
theorem claim_C8_amended (w : NetWorld) (store : EtcdData)
    (e : ServiceExporter) (network ip service : String) (l : Listener)
    (hput : e.conn.putOk = false)
    (hnl : netListen w network (exportHostport ip) = some l) :
    (NewExportedPort w store e network ip service).listener = none ∧
    (NewExportedPort w store e network ip service).err.isSome = true ∧
    (NewExportedPort w store e network ip service).exporter = e ∧
    (NewExportedPort w store e network ip service).store = store ∧
    ((NewExportedPort w store e network ip service).events.contains
      .closeListener) = false := by
  unfold NewExportedPort
  rw [hnl]
  simp [hput, List.contains, List.elem]

/-- Claim C8 witness: the amended statement in the concrete put-failing
run. -/
theorem claim_C8_amended_witness :
    putFailExporter.conn.putOk = false ∧
    netListen w0 "tcp" (exportHostport "127.0.0.1") =
      some ⟨"127.0.0.1", 34567⟩ ∧
    ((NewExportedPort w0 [] putFailExporter "tcp" "127.0.0.1"
      "svc").listener = none ∧
    (NewExportedPort w0 [] putFailExporter "tcp" "127.0.0.1"
      "svc").err.isSome = true ∧
    (NewExportedPort w0 [] putFailExporter "tcp" "127.0.0.1"
      "svc").exporter = putFailExporter ∧
    (NewExportedPort w0 [] putFailExporter "tcp" "127.0.0.1"
      "svc").store = [] ∧
    ((NewExportedPort w0 [] putFailExporter "tcp" "127.0.0.1"
      "svc").events.contains .closeListener) = false) :=
  ⟨rfl, by decide,
    claim_C8_amended w0 [] putFailExporter "tcp" "127.0.0.1" "svc"
      ⟨"127.0.0.1", 34567⟩ rfl (by decide)⟩

/-! ### Claim C9: the lease identifier is immutable after init -/

/-- Claim C9: the lease identifier is written exactly once — by a fully
successful `initLease`, to the store-granted id; a failed `initLease`
leaves it untouched — and no later operation (plain export, TLS export,
HTTP serve, unexport) modifies it; moreover every store put an export
performs is attached to that very lease. -/
theorem claim_C9_lease_immutable (w : NetWorld) (serveErr : Option String)
    (store : EtcdData) (e : ServiceExporter)
    (network ip service addr : String) (cfg : TLSConfig) (ttl : Int) :
    (∀ id ch, e.conn.grantRes ttl = some id →
      e.conn.keepAliveRes id = some ch →
      (initLease e ttl).exporter.leaseID = id) ∧
    ((initLease e ttl).err.isSome = true →
      (initLease e ttl).exporter.leaseID = e.leaseID) ∧
    (NewExportedPort w store e network ip service).exporter.leaseID =
      e.leaseID ∧
    (NewExportedTLSPort w store e network ip service cfg).exporter.leaseID =
      e.leaseID ∧
    (ListenAndServeNamedHTTP w serveErr store e service addr).exporter.leaseID
      = e.leaseID ∧
    (UnexportPort store e).exporter.leaseID = e.leaseID ∧
    ((NewExportedPort w store e network ip service).events.all
      (fun ev => match ev with
        | .put _ _ lease => lease == e.leaseID
        | _ => true)) = true := by
  refine ⟨?_, ?_, ?_, ?_, ?_, ?_, ?_⟩
  · intro id ch hg hk
    simp [initLease, hg, hk]
  · unfold initLease
    cases hg : e.conn.grantRes ttl with
    | none => intro _; rfl
    | some id =>
      dsimp only
      cases hk : e.conn.keepAliveRes id with
      | none => intro _; rfl
      | some ch => intro h; simp at h
  · exact export_exporter_leaseID w store e network ip service
  · unfold NewExportedTLSPort
    split <;> exact export_exporter_leaseID w store e network ip service
  · unfold ListenAndServeNamedHTTP
    split <;> exact export_exporter_leaseID w store e "tcp" addr service
  · unfold UnexportPort
    split
    · rfl
    · split <;> rfl
  · unfold NewExportedPort
    cases netListen w network (exportHostport ip) with
    | none => rfl
    | some l =>
      dsimp only
      cases hput : e.conn.putOk <;> simp [hput]

/-! ### Claim C10: unexport does not clear the path -/

/-- Claim C10: a successful unexport leaves the remembered path exactly
as it was — it is not cleared — so a second unexport with no export in
between is not a no-op: it issues the very same `Delete` of the same key
again, and against a reachable store it again reports success. -/
theorem claim_C10_unexport_idempotent (store : EtcdData)
    (e : ServiceExporter) (hp : e.path.length ≠ 0)
    (hd : e.conn.deleteOk = true) :
    (UnexportPort store e).err = none ∧
    (UnexportPort store e).exporter.path = e.path ∧
    (UnexportPort (UnexportPort store e).store
      (UnexportPort store e).exporter).err = none ∧
    (UnexportPort (UnexportPort store e).store
      (UnexportPort store e).exporter).events = [.del e.path] := by
  simp [UnexportPort, hp, hd]

/-- Claim C10 witness: two unexports in a row on a concrete exporter
that had published "/k". -/
theorem claim_C10_witness :
    pathExporter.path.length ≠ 0 ∧
    pathExporter.conn.deleteOk = true ∧
    ((UnexportPort [("/k", "v", 7)] pathExporter).err = none ∧
    (UnexportPort [("/k", "v", 7)] pathExporter).exporter.path =
      pathExporter.path ∧
    (UnexportPort (UnexportPort [("/k", "v", 7)] pathExporter).store
      (UnexportPort [("/k", "v", 7)] pathExporter).exporter).err = none ∧
    (UnexportPort (UnexportPort [("/k", "v", 7)] pathExporter).store
      (UnexportPort [("/k", "v", 7)] pathExporter).exporter).events =
      [.del pathExporter.path]) :=
  ⟨by decide, rfl,
    claim_C10_unexport_idempotent [("/k", "v", 7)] pathExporter
      (by decide) rfl⟩
